import Mathlib

/-!
Verification of the memory-match backend core: the statistics aggregation in
`get_user_stats` (src/backend/app.py), the credential service (src/backend/auth.py),
and the user-creation endpoints (src/backend/app.py, src/backend/models.py).

Machine integers of the database columns are modelled as `Int`; the `/` of
Python 3 on these integers is exact division in `ℚ` (the float approximation is
out of scope); `round(x, 2)` is round-half-to-even at two decimal places.
Wall-clock times are seconds as `Nat`, read once per operation.
-/

namespace MemoryMatch

/-! ## Stats Aggregator — `get_user_stats`, src/backend/app.py lines 237-265 -/

/-- One row of the `game_results` table (src/backend/models.py), restricted to the
columns the stats computation reads. -/
structure GameResult where
  score : Int
  moves : Int
  time_taken : Int
deriving DecidableEq, Repr

/-- The `stats` dictionary built by `get_user_stats`. -/
structure Stats where
  total_games : Nat
  average_score : ℚ
  average_moves : ℚ
  average_time : ℚ
  best_score : Int
  total_time_played : Int
deriving DecidableEq, Repr

/-- Python's `round` to the nearest integer: round-half-to-even.  `f` is `⌊q⌋`
(Euclidean division by the positive denominator) and `r2` is twice the
remainder `q - ⌊q⌋` scaled by the denominator, so comparing `r2` with the
denominator compares the fractional part with `1/2`. -/
def roundHalfEven (q : ℚ) : Int :=
  let f := q.num / (q.den : Int)
  let r2 := 2 * (q.num - f * (q.den : Int))
  if r2 < (q.den : Int) then f
  else if (q.den : Int) < r2 then f + 1
  else if f % 2 = 0 then f else f + 1

/-- Python's `round(q, 2)`. -/
def pyRound2 (q : ℚ) : ℚ := (roundHalfEven (q * 100) : ℚ) / 100

/-- The aggregation of `get_user_stats` over the user's results, including the
guard for the empty collection (lines 239-250) and the aggregate expressions of
lines 252-265.  Python's `max` on an empty sequence raises `ValueError`, so the
best-score computation is `Option`-valued and the whole computation is
`Except`-valued; the empty guard makes the error branch unreachable. -/
def computeStats (results : List GameResult) : Except String Stats :=
  if results = [] then
    .ok ⟨0, 0, 0, 0, 0, 0⟩
  else
    let total_games : Nat := results.length
    let total_score : Int := (results.map (·.score)).sum
    let total_moves : Int := (results.map (·.moves)).sum
    let total_time : Int := (results.map (·.time_taken)).sum
    match (results.map (·.score)).max? with
    | none => .error "max() arg is an empty sequence"
    | some best_score =>
      .ok ⟨total_games,
           pyRound2 ((total_score : ℚ) / (total_games : ℚ)),
           pyRound2 ((total_moves : ℚ) / (total_games : ℚ)),
           pyRound2 ((total_time : ℚ) / (total_games : ℚ)),
           best_score,
           total_time⟩

/-- `List.max?` over `Int` returns exactly a maximal element of the list. -/
lemma int_max?_eq_some_iff (l : List Int) (a : Int) :
    l.max? = some a ↔ a ∈ l ∧ ∀ b ∈ l, b ≤ a := by
  haveI : Std.Antisymm ((· : Int) ≤ ·) := ⟨fun h h' => le_antisymm h h'⟩
  exact List.max?_eq_some_iff (fun x => le_refl x) (fun x y => max_choice x y)
    (fun x y z => max_le_iff)

/-- `List.max?` over `Int` is invariant under permutation. -/
lemma int_max?_perm {l l' : List Int} (h : l.Perm l') : l.max? = l'.max? := by
  cases hm : l.max? with
  | none =>
    rw [List.max?_eq_none_iff] at hm
    subst hm
    have : l' = [] := h.symm.eq_nil
    simp [this]
  | some a =>
    rw [int_max?_eq_some_iff] at hm
    symm
    rw [int_max?_eq_some_iff]
    exact ⟨h.mem_iff.mp hm.1, fun b hb => hm.2 b (h.mem_iff.mpr hb)⟩

/-- `computeStats` succeeds on every input list. -/
lemma computeStats_ok (results : List GameResult) : ∃ s, computeStats results = .ok s := by
  unfold computeStats
  split
  · exact ⟨_, rfl⟩
  · rename_i hne
    cases hm : (results.map (·.score)).max? with
    | none =>
      rw [List.max?_eq_none_iff, List.map_eq_nil_iff] at hm
      exact absurd hm hne
    | some b => exact ⟨_, by simp only [hm]; rfl⟩

/-- C1: on every non-empty list of results, `computeStats` succeeds with
`total_games` the count, the three averages equal to the corresponding sums
divided by the count and rounded to 2 decimal places, `best_score` a maximum of
the scores, and `total_time_played` the unrounded sum of `time_taken`. -/
theorem C1_stats_nonempty (rs : List GameResult) (h : rs ≠ []) :
    ∃ s, computeStats rs = .ok s
      ∧ s.total_games = rs.length
      ∧ s.average_score = pyRound2 ((((rs.map (·.score)).sum : Int) : ℚ) / (rs.length : ℚ))
      ∧ s.average_moves = pyRound2 ((((rs.map (·.moves)).sum : Int) : ℚ) / (rs.length : ℚ))
      ∧ s.average_time = pyRound2 ((((rs.map (·.time_taken)).sum : Int) : ℚ) / (rs.length : ℚ))
      ∧ s.best_score ∈ rs.map (·.score)
      ∧ (∀ x ∈ rs.map (·.score), x ≤ s.best_score)
      ∧ s.total_time_played = (rs.map (·.time_taken)).sum := by
  cases hm : (rs.map (·.score)).max? with
  | none =>
    rw [List.max?_eq_none_iff, List.map_eq_nil_iff] at hm
    exact absurd hm h
  | some b =>
    have hb := (int_max?_eq_some_iff _ _).mp hm
    have heq : computeStats rs = .ok
        ⟨rs.length,
         pyRound2 ((((rs.map (·.score)).sum : Int) : ℚ) / (rs.length : ℚ)),
         pyRound2 ((((rs.map (·.moves)).sum : Int) : ℚ) / (rs.length : ℚ)),
         pyRound2 ((((rs.map (·.time_taken)).sum : Int) : ℚ) / (rs.length : ℚ)),
         b,
         (rs.map (·.time_taken)).sum⟩ := by
      unfold computeStats
      rw [if_neg h]
      simp only [hm]
    exact ⟨_, heq, rfl, rfl, rfl, rfl, hb.1, hb.2, rfl⟩

/-- Witness for C1 at the spec's example input, including the expected stats
record: averages 150, 15 and 50, best score 200, total time 100. -/
theorem C1_stats_nonempty_witness :
    ([⟨100, 20, 60⟩, ⟨200, 10, 40⟩] : List GameResult) ≠ []
    ∧ computeStats [⟨100, 20, 60⟩, ⟨200, 10, 40⟩] = .ok ⟨2, 150, 15, 50, 200, 100⟩
    ∧ (∃ s, computeStats [(⟨100, 20, 60⟩ : GameResult), ⟨200, 10, 40⟩] = .ok s
        ∧ s.total_games = 2
        ∧ s.average_score =
            pyRound2 (((([(⟨100, 20, 60⟩ : GameResult), ⟨200, 10, 40⟩].map (·.score)).sum : Int) : ℚ) / 2)
        ∧ s.average_moves =
            pyRound2 (((([(⟨100, 20, 60⟩ : GameResult), ⟨200, 10, 40⟩].map (·.moves)).sum : Int) : ℚ) / 2)
        ∧ s.average_time =
            pyRound2 (((([(⟨100, 20, 60⟩ : GameResult), ⟨200, 10, 40⟩].map (·.time_taken)).sum : Int) : ℚ) / 2)
        ∧ s.best_score ∈ [(⟨100, 20, 60⟩ : GameResult), ⟨200, 10, 40⟩].map (·.score)
        ∧ (∀ x ∈ [(⟨100, 20, 60⟩ : GameResult), ⟨200, 10, 40⟩].map (·.score), x ≤ s.best_score)
        ∧ s.total_time_played =
            ([(⟨100, 20, 60⟩ : GameResult), ⟨200, 10, 40⟩].map (·.time_taken)).sum) := by
  refine ⟨List.cons_ne_nil _ _, ?_, ?_⟩
  · norm_num [computeStats, pyRound2, roundHalfEven, List.max?_cons]
    exact List.cons_ne_nil _ _
  · simpa using C1_stats_nonempty [⟨100, 20, 60⟩, ⟨200, 10, 40⟩] (List.cons_ne_nil _ _)

/-- C5: on the empty list of results, `computeStats` returns the all-zero stats
record rather than an error. -/
theorem C5_stats_empty : computeStats [] = .ok ⟨0, 0, 0, 0, 0, 0⟩ := rfl

/-- C6: `computeStats` returns the same result on any permutation of its input,
and it succeeds (raises nothing) on every input list. -/
theorem C6_stats_perm_invariant (rs rs' : List GameResult) (h : rs.Perm rs') :
    computeStats rs = computeStats rs' ∧ ∃ s, computeStats rs = .ok s := by
  refine ⟨?_, computeStats_ok rs⟩
  by_cases hnil : rs = []
  · subst hnil
    have : rs' = [] := h.symm.eq_nil
    subst this
    rfl
  · have hnil' : rs' ≠ [] := fun he => hnil (List.Perm.eq_nil (he ▸ h))
    have hlen := h.length_eq
    have hs : (rs.map (·.score)).sum = (rs'.map (·.score)).sum := (h.map _).sum_eq
    have hmv : (rs.map (·.moves)).sum = (rs'.map (·.moves)).sum := (h.map _).sum_eq
    have hti : (rs.map (·.time_taken)).sum = (rs'.map (·.time_taken)).sum := (h.map _).sum_eq
    have hmax : (rs.map (·.score)).max? = (rs'.map (·.score)).max? := int_max?_perm (h.map _)
    unfold computeStats
    rw [if_neg hnil, if_neg hnil']
    simp only [hlen, hs, hmv, hti, hmax]

/-- Witness for C6 at a concrete two-element permutation. -/
theorem C6_stats_perm_invariant_witness :
    computeStats [⟨100, 20, 60⟩, ⟨200, 10, 40⟩] = computeStats [⟨200, 10, 40⟩, ⟨100, 20, 60⟩]
    ∧ ∃ s, computeStats [⟨100, 20, 60⟩, ⟨200, 10, 40⟩] = .ok s :=
  C6_stats_perm_invariant [⟨100, 20, 60⟩, ⟨200, 10, 40⟩] [⟨200, 10, 40⟩, ⟨100, 20, 60⟩]
    (List.Perm.swap _ _ _)

/-! ## Credential Service — `AuthService`, src/backend/auth.py

The `jwt` and `werkzeug.security` packages are third-party code, not part of
this repository; they are modelled from the spec ("signed, self-contained
credential", "validity is determined purely by signature and expiry check").
The signature is an ideal message-authentication code: it is exactly the pair
of the secret and the signed payload, so a signature verifies if and only if
it was produced over the same payload with the same secret. -/

/-- The payload dictionary built by `AuthService.generate_jwt`: `user_id`,
expiry and issued-at (seconds). -/
structure JwtPayload where
  user_id : Nat
  exp : Nat
  iat : Nat
deriving DecidableEq, Repr

/-- Modelled from the spec: the signature the external `jwt` library attaches,
as an ideal MAC over (secret, payload). -/
def jwtSign (secret : String) (p : JwtPayload) : String × JwtPayload := (secret, p)

/-- A token string as the verifier sees it: either a well-formed token carrying
a payload and some signature (not necessarily a valid one), or a string that
does not parse as a token at all. -/
inductive JwtToken where
  | signed (payload : JwtPayload) (sig : String × JwtPayload)
  | malformed (raw : String)
deriving DecidableEq, Repr

/-- Failure kinds of the external library: `jwt.ExpiredSignatureError` and
`jwt.InvalidTokenError`. -/
inductive JwtError where
  | expiredSignature
  | invalidToken
deriving DecidableEq, Repr

/-- Modelled from the spec: `jwt.encode(payload, secret, algorithm)`. -/
def jwtEncode (p : JwtPayload) (secret : String) : JwtToken :=
  .signed p (jwtSign secret p)

/-- Modelled from the spec: `jwt.decode(token, secret, algorithms)`.  The
signature is checked before any claim, so a bad signature or unparsable token
raises `InvalidTokenError` even when the encoded expiry has also passed;
a well-signed token raises `ExpiredSignatureError` exactly when the current
time is past the encoded expiry. -/
def jwtDecode (tok : JwtToken) (secret : String) (now : Nat) : Except JwtError JwtPayload :=
  match tok with
  | .malformed _ => .error .invalidToken
  | .signed p sig =>
    if sig ≠ jwtSign secret p then .error .invalidToken
    else if p.exp < now then .error .expiredSignature
    else .ok p

/-- `AuthService.JWT_SECRET`: default of the `JWT_SECRET_KEY` env variable. -/
def JWT_SECRET : String := "your-secret-key-change-in-production"

/-- `AuthService.JWT_EXPIRATION_DAYS`. -/
def JWT_EXPIRATION_DAYS : Nat := 7

/-- Seconds in a day, for `timedelta(days=...)`. -/
def secondsPerDay : Nat := 24 * 60 * 60

/-- `AuthService.generate_jwt` (src/backend/auth.py lines 21-29): payload with
`user_id`, `exp = now + 7 days`, `iat = now`, encoded under `JWT_SECRET`. -/
def generate_jwt (user_id : Nat) (now : Nat) : JwtToken :=
  jwtEncode ⟨user_id, now + JWT_EXPIRATION_DAYS * secondsPerDay, now⟩ JWT_SECRET

/-- `AuthService.verify_jwt` (src/backend/auth.py lines 31-40): decode under
`JWT_SECRET` and return the payload's `user_id`, turning the library's two
failure kinds into the two distinct exception messages of the source. -/
def verify_jwt (token : JwtToken) (now : Nat) : Except String Nat :=
  match jwtDecode token JWT_SECRET now with
  | .ok payload => .ok payload.user_id
  | .error .expiredSignature => .error "Token expired"
  | .error .invalidToken => .error "Invalid token"

/-- A token is well-signed when its signature is the one `JWT_SECRET` produces
over its own payload. -/
def WellSigned (tok : JwtToken) : Prop :=
  ∃ p, tok = .signed p (jwtSign JWT_SECRET p)

/-- C2: verifying a freshly generated token returns the encoded user id, as
long as the verification time is not past the token's expiry (the secret is
the process-wide constant on both sides). -/
theorem C2_verify_generate (uid now now' : Nat)
    (h : now' ≤ now + JWT_EXPIRATION_DAYS * secondsPerDay) :
    verify_jwt (generate_jwt uid now) now' = .ok uid := by
  unfold verify_jwt generate_jwt jwtEncode jwtDecode
  simp [Nat.not_lt.mpr h]

/-- Witness for C2: a token issued at time 1000 for user 42 verifies at
time 1000. -/
theorem C2_verify_generate_witness :
    verify_jwt (generate_jwt 42 1000) 1000 = .ok 42 :=
  C2_verify_generate 42 1000 1000 (Nat.le_add_right _ _)

/-- Counterexample to C3 as stated: a forged token (signed under a different
secret) whose encoded expiry (5) is past at verification time 10 fails with
the invalid-token error, not the expired error, although the current time is
past the token's encoded expiry. -/
theorem C3_counterexample :
    (5 : Nat) < 10
    ∧ verify_jwt (.signed ⟨1, 5, 0⟩ ("forged-secret", ⟨1, 5, 0⟩)) 10 = .error "Invalid token"
    ∧ verify_jwt (.signed ⟨1, 5, 0⟩ ("forged-secret", ⟨1, 5, 0⟩)) 10 ≠ .error "Token expired" := by
  refine ⟨by norm_num, ?_, ?_⟩ <;>
    simp [verify_jwt, jwtDecode, jwtSign, JWT_SECRET]

/-- C3 as amended: verification fails with the expired error exactly when the
token is well-signed and the current time is past its encoded expiry; it fails
with the invalid error exactly when the token is not well-signed (forged
signature or malformed payload), regardless of expiry; the two failure kinds
are distinct; and on a well-signed unexpired token it returns the encoded
user id. -/
theorem C3_verify_taxonomy (tok : JwtToken) (now : Nat) :
    (verify_jwt tok now = .error "Token expired"
      ↔ ∃ p, tok = .signed p (jwtSign JWT_SECRET p) ∧ p.exp < now)
    ∧ (verify_jwt tok now = .error "Invalid token" ↔ ¬ WellSigned tok)
    ∧ (Except.error "Token expired" ≠ (Except.error "Invalid token" : Except String Nat))
    ∧ (∀ p, tok = .signed p (jwtSign JWT_SECRET p) → ¬ p.exp < now →
        verify_jwt tok now = .ok p.user_id) := by
  refine ⟨?_, ?_, by simp, ?_⟩
  · constructor
    · intro hv
      cases tok with
      | malformed raw => simp [verify_jwt, jwtDecode] at hv
      | signed p sig =>
        by_cases hsig : sig = jwtSign JWT_SECRET p
        · subst hsig
          by_cases hexp : p.exp < now
          · exact ⟨p, rfl, hexp⟩
          · simp [verify_jwt, jwtDecode, hexp] at hv
        · simp [verify_jwt, jwtDecode, hsig] at hv
    · rintro ⟨p, rfl, hexp⟩
      simp [verify_jwt, jwtDecode, hexp]
  · constructor
    · intro hv hws
      obtain ⟨p, rfl⟩ := hws
      by_cases hexp : p.exp < now
      · simp [verify_jwt, jwtDecode, hexp] at hv
      · simp [verify_jwt, jwtDecode, hexp] at hv
    · intro hws
      cases tok with
      | malformed raw => simp [verify_jwt, jwtDecode]
      | signed p sig =>
        by_cases hsig : sig = jwtSign JWT_SECRET p
        · exact absurd ⟨p, by rw [hsig]⟩ hws
        · simp [verify_jwt, jwtDecode, hsig]
  · rintro p rfl hexp
    simp [verify_jwt, jwtDecode, hexp]

/-- Witness for C3's amended taxonomy at a concrete well-signed expired token:
its verification at time 10 fails with the expired error. -/
theorem C3_verify_taxonomy_witness :
    verify_jwt (.signed ⟨7, 5, 0⟩ (jwtSign JWT_SECRET ⟨7, 5, 0⟩)) 10 = .error "Token expired" :=
  (C3_verify_taxonomy (.signed ⟨7, 5, 0⟩ (jwtSign JWT_SECRET ⟨7, 5, 0⟩)) 10).1.mpr
    ⟨⟨7, 5, 0⟩, rfl, by norm_num⟩

/-- C8: a generated token is well-signed and its payload carries the given
user id, an issued-at time, and an expiry exactly 7 days after the issued-at
time. -/
theorem C8_token_contents (uid now : Nat) :
    ∃ p, generate_jwt uid now = .signed p (jwtSign JWT_SECRET p)
      ∧ p.user_id = uid ∧ p.iat = now ∧ p.exp = p.iat + 7 * 24 * 60 * 60 :=
  ⟨⟨uid, now + JWT_EXPIRATION_DAYS * secondsPerDay, now⟩, rfl, rfl, rfl, rfl⟩

/-! ## Password hashing — `AuthService.hash_password` / `verify_password`

`werkzeug.security.generate_password_hash` draws a fresh random salt on each
call and stores `method$salt$digest`; `check_password_hash` re-derives the
digest from the salt embedded in the stored hash.  The random salt is made an
explicit argument; the KDF is modelled from the spec as a deterministic keyed
digest.  Stored hashes are strings, modelled as `List Char` so that malformed
(unparsable) strings are in the domain of `verify_password`. -/

/-- The hashing method name prefixed to every generated hash. -/
def hashMethod : List Char := "scrypt".toList

/-- Modelled from the spec: the salted one-way digest ("recomputes/compares
using the salt embedded in the stored hash").  Deterministic in (salt,
password), injective in the salt. -/
def pseudoDigest (salt pw : List Char) : List Char := salt ++ '|' :: pw

/-- `AuthService.hash_password` (src/backend/auth.py lines 11-14), with the
library's random salt as an explicit argument: stores `method$salt$digest`. -/
def hash_password (salt pw : List Char) : List Char :=
  hashMethod ++ ('$' :: (salt ++ ('$' :: pseudoDigest salt pw)))

/-- `pwhash.split("$", 2)`: split a stored hash at its first two `$`
separators; `none` when there are fewer than two. -/
def split3 (l : List Char) : Option (List Char × List Char × List Char) :=
  match l.span (fun c => c ≠ '$') with
  | (_, []) => none
  | (m, _ :: r2) =>
    match r2.span (fun c => c ≠ '$') with
    | (_, []) => none
    | (s, _ :: rest) => some (m, s, rest)

/-- `AuthService.verify_password` (src/backend/auth.py lines 16-19), via
`check_password_hash`.  Modelled from the spec: an unparsable stored hash, or
one naming an unknown method, is a non-match (`false`), never an exception. -/
def verify_password (pwhash pw : List Char) : Bool :=
  match split3 pwhash with
  | none => false
  | some (m, salt, digest) => m == hashMethod && digest == pseudoDigest salt pw

/-- A stored hash is malformed when it does not split into
`method$salt$digest` with the known method name. -/
def malformedHash (pwhash : List Char) : Bool :=
  match split3 pwhash with
  | none => true
  | some (m, _, _) => m != hashMethod

/-- `takeWhile (· ≠ '$')` of a list with its first `$` after `l` is `l`. -/
lemma takeWhile_dollar (l r : List Char) (hl : ∀ c ∈ l, c ≠ '$') :
    (l ++ '$' :: r).takeWhile (fun c => c ≠ '$') = l := by
  induction l with
  | nil => simp
  | cons c cs ih =>
    have hc : c ≠ '$' := hl c (List.mem_cons_self c cs)
    have ih' := ih (fun x hx => hl x (List.mem_cons_of_mem c hx))
    simp only [List.cons_append]
    rw [List.takeWhile_cons_of_pos (by simp [hc]), ih']

/-- `dropWhile (· ≠ '$')` of a list with its first `$` after `l` starts at the
`$`. -/
lemma dropWhile_dollar (l r : List Char) (hl : ∀ c ∈ l, c ≠ '$') :
    (l ++ '$' :: r).dropWhile (fun c => c ≠ '$') = '$' :: r := by
  induction l with
  | nil => simp
  | cons c cs ih =>
    have hc : c ≠ '$' := hl c (List.mem_cons_self c cs)
    have ih' := ih (fun x hx => hl x (List.mem_cons_of_mem c hx))
    simp only [List.cons_append]
    rw [List.dropWhile_cons_of_pos (by simp [hc]), ih']

/-- `span (· ≠ '$')` splits exactly at the first `$`. -/
lemma span_dollar (l r : List Char) (hl : ∀ c ∈ l, c ≠ '$') :
    (l ++ '$' :: r).span (fun c => c ≠ '$') = (l, '$' :: r) := by
  rw [List.span_eq_take_drop, takeWhile_dollar l r hl, dropWhile_dollar l r hl]

/-- Parsing a generated hash recovers the method, the salt and the digest,
provided the salt contains no `$` separator (generated salts are
alphanumeric). -/
lemma split3_hash_password (salt pw : List Char) (hs : ∀ c ∈ salt, c ≠ '$') :
    split3 (hash_password salt pw) = some (hashMethod, salt, pseudoDigest salt pw) := by
  have hm : ∀ c ∈ hashMethod, c ≠ '$' := by decide
  unfold split3 hash_password
  rw [span_dollar hashMethod (salt ++ ('$' :: pseudoDigest salt pw)) hm]
  simp only [span_dollar salt (pseudoDigest salt pw) hs]

/-- C4: with two distinct well-formed salts (no `$` character), hashing the
same password yields two different stored hashes, and each of them verifies
against that password. -/
theorem C4_hash_verify (pw s1 s2 : List Char)
    (h1 : ∀ c ∈ s1, c ≠ '$') (h2 : ∀ c ∈ s2, c ≠ '$') (hne : s1 ≠ s2) :
    verify_password (hash_password s1 pw) pw = true
    ∧ verify_password (hash_password s2 pw) pw = true
    ∧ hash_password s1 pw ≠ hash_password s2 pw := by
  refine ⟨?_, ?_, ?_⟩
  · simp [verify_password, split3_hash_password s1 pw h1]
  · simp [verify_password, split3_hash_password s2 pw h2]
  · intro he
    have h3 := congrArg split3 he
    rw [split3_hash_password s1 pw h1, split3_hash_password s2 pw h2] at h3
    simp only [Option.some.injEq, Prod.mk.injEq] at h3
    exact hne h3.2.1

/-- Witness for C4 at salts `a` and `b` and password `pw`. -/
theorem C4_hash_verify_witness :
    verify_password (hash_password ['a'] "pw".toList) "pw".toList = true
    ∧ verify_password (hash_password ['b'] "pw".toList) "pw".toList = true
    ∧ hash_password ['a'] "pw".toList ≠ hash_password ['b'] "pw".toList :=
  C4_hash_verify "pw".toList ['a'] ['b'] (by decide) (by decide) (by decide)

/-- C7: `verify_password` returns `false` on every malformed stored hash and
every candidate password (it is a total function, so it cannot raise). -/
theorem C7_verify_malformed (pwhash pw : List Char) (hm : malformedHash pwhash = true) :
    verify_password pwhash pw = false := by
  unfold verify_password
  unfold malformedHash at hm
  cases hsp : split3 pwhash with
  | none => rfl
  | some t =>
    obtain ⟨m, salt, digest⟩ := t
    rw [hsp] at hm
    simp only [bne_iff_ne, ne_eq] at hm
    simp [hm]

/-- Witness for C7 at a stored hash with no `$` separators. -/
theorem C7_verify_malformed_witness :
    verify_password "garbage".toList "pw".toList = false :=
  C7_verify_malformed "garbage".toList "pw".toList (by decide)

/-! ## Registration — `register`, src/backend/app.py lines 34-86

The persistence boundary is a list of `users` rows plus the next
autoincrement id.  Request fields absent from the JSON body and empty strings
are both falsy in `if not email or not username or not password`, so both are
modelled as `""`. -/

/-- One row of the `users` table (src/backend/models.py lines 6-15), restricted
to the columns the endpoints read and write. -/
structure User where
  id : Nat
  username : String
  email : String
  password_hash : List Char
  last_login : Nat
deriving DecidableEq, Repr

/-- The database visible to the endpoints. -/
structure DB where
  users : List User
  nextId : Nat
deriving DecidableEq, Repr

/-- Character class `[a-zA-Z0-9._%+-]` of the email regex. -/
def isLocalChar (c : Char) : Bool :=
  c.isAlpha || c.isDigit || c == '.' || c == '_' || c == '%' || c == '+' || c == '-'

/-- Character class `[a-zA-Z0-9.-]` of the email regex. -/
def isDomainChar (c : Char) : Bool :=
  c.isAlpha || c.isDigit || c == '.' || c == '-'

/-- `[a-zA-Z0-9.-]+\.[a-zA-Z]{2,}$`: since the final group excludes dots, the
matched dot is the last dot of the domain part, so the matcher splits at the
last dot (via the reversed list). -/
def domainMatch (r : List Char) : Bool :=
  match r.reverse.span (fun c => c ≠ '.') with
  | (_, []) => false
  | (tldRev, _ :: dRev) =>
    !dRev.isEmpty && dRev.all isDomainChar && tldRev.all (·.isAlpha)
      && decide (2 ≤ tldRev.length)

/-- `re.match(r'^[a-zA-Z0-9._%+-]+@[a-zA-Z0-9.-]+\.[a-zA-Z]{2,}$', email)`
as a Boolean: both character classes exclude `@`, so the string must contain
exactly one `@`; Python's `$` also matches just before one final newline. -/
def emailRegexMatch (email : String) : Bool :=
  let cs := email.toList
  let cs := if cs.getLast? = some '\n' then cs.dropLast else cs
  match cs.splitOn '@' with
  | [lp, rest] => !lp.isEmpty && lp.all isLocalChar && domainMatch rest
  | _ => false

/-- The three response shapes of the `register` endpoint that its control flow
can produce (the `except` branch is unreachable in this model, where hashing
and the insert cannot fail). -/
inductive RegisterResult where
  | badRequest (error : String)
  | conflict (error : String)
  | created (user : User) (token : JwtToken)
deriving DecidableEq, Repr

/-- The `register` endpoint (src/backend/app.py lines 34-86): required-field
check, email-format check, email-uniqueness check (409), username-uniqueness
check (409), password-length check, then insert and token issuance.  The salt
of the password hash and the clock reading are explicit arguments. -/
def register (db : DB) (email username password : String) (salt : List Char) (now : Nat) :
    RegisterResult × DB :=
  if email == "" || username == "" || password == "" then
    (.badRequest "Email, username, and password are required", db)
  else if !emailRegexMatch email then
    (.badRequest "Invalid email format", db)
  else if (db.users.find? (fun u => u.email == email)).isSome then
    (.conflict "Email already registered", db)
  else if (db.users.find? (fun u => u.username == username)).isSome then
    (.conflict "Username already taken", db)
  else if password.length < 6 then
    (.badRequest "Password must be at least 6 characters", db)
  else
    let user : User := ⟨db.nextId, username, email, hash_password salt password.toList, now⟩
    (.created user (generate_jwt db.nextId now), ⟨db.users ++ [user], db.nextId + 1⟩)

/-- The uniqueness invariant of the `users` table: `username` and `email` are
each globally unique. -/
def UniqueUsers (db : DB) : Prop :=
  db.users.Pairwise (fun a b => a.username ≠ b.username ∧ a.email ≠ b.email)

/-- A successful registration implies every guard of the endpoint passed, and
determines the created row and the new database. -/
lemma register_created {db db' : DB} {email u1 p1 : String} {s1 : List Char} {n1 : Nat}
    {usr : User} {tok : JwtToken}
    (h : register db email u1 p1 s1 n1 = (.created usr tok, db')) :
    (email == "" || u1 == "" || p1 == "") = false
    ∧ emailRegexMatch email = true
    ∧ db.users.find? (fun u => u.email == email) = none
    ∧ db.users.find? (fun u => u.username == u1) = none
    ∧ usr = ⟨db.nextId, u1, email, hash_password s1 p1.toList, n1⟩
    ∧ db' = ⟨db.users ++ [usr], db.nextId + 1⟩ := by
  unfold register at h
  split_ifs at h with h1 h2 h3 h4 h5
  · exact absurd h (by simp)
  · exact absurd h (by simp)
  · exact absurd h (by simp)
  · exact absurd h (by simp)
  · exact absurd h (by simp)
  · simp only [Prod.mk.injEq, RegisterResult.created.injEq] at h
    obtain ⟨⟨hu, ht⟩, hdb⟩ := h
    refine ⟨Bool.eq_false_iff.mpr h1, ?_, ?_, ?_, hu.symm, ?_⟩
    · have := Bool.eq_false_iff.mpr h2
      simpa using this
    · exact Option.not_isSome_iff_eq_none.mp h3
    · exact Option.not_isSome_iff_eq_none.mp h4
    · rw [← hdb, hu]

/-- Counterexample to C9 as stated: after a successful registration of
`alice` with email `a@b.com`, a second request with the same email but with
username `""` (the username field empty or absent in the JSON body) is
rejected by the required-fields guard with a 400-style error, not with a
conflict. -/
theorem C9_counterexample :
    register ⟨[], 1⟩ "a@b.com" "alice" "secret123" ['s'] 0
      = (.created ⟨1, "alice", "a@b.com", hash_password ['s'] "secret123".toList, 0⟩
          (generate_jwt 1 0),
         ⟨[⟨1, "alice", "a@b.com", hash_password ['s'] "secret123".toList, 0⟩], 2⟩)
    ∧ register ⟨[⟨1, "alice", "a@b.com", hash_password ['s'] "secret123".toList, 0⟩], 2⟩
        "a@b.com" "" "secret123" ['t'] 1
      = (.badRequest "Email, username, and password are required",
         ⟨[⟨1, "alice", "a@b.com", hash_password ['s'] "secret123".toList, 0⟩], 2⟩) :=
  ⟨rfl, rfl⟩

/-- C9 as amended: after a successful registration, any second registration
request with the same email and nonempty username and password fields is
rejected with the email conflict — regardless of which nonempty username it
supplies — and the database is unchanged; moreover the successful registration
preserves global uniqueness of usernames and emails. -/
theorem C9_duplicate_email (db db' : DB) (email u1 p1 : String) (s1 : List Char) (n1 : Nat)
    (usr : User) (tok : JwtToken)
    (hreg : register db email u1 p1 s1 n1 = (.created usr tok, db')) :
    (∀ u2 p2 s2 n2, u2 ≠ "" → p2 ≠ "" →
        register db' email u2 p2 s2 n2 = (.conflict "Email already registered", db'))
    ∧ (UniqueUsers db → UniqueUsers db') := by
  obtain ⟨h1, h2, h3, h4, husr, hdb⟩ := register_created hreg
  subst husr
  subst hdb
  have hemail : (email == "") = false := by
    rcases he : email == "" with _ | _
    · rfl
    · rw [he] at h1
      simp at h1
  constructor
  · intro u2 p2 s2 n2 hu2 hp2
    have hc1 : (email == "" || u2 == "" || p2 == "") = false := by
      simp [hemail, hu2, hp2]
    have hfind : ((db.users ++ [(⟨db.nextId, u1, email, hash_password s1 p1.toList, n1⟩ : User)]).find?
        (fun u => u.email == email)).isSome = true := by
      rw [List.find?_append, h3]
      simp
    simp [register, hc1, h2, hfind]
  · intro hu
    unfold UniqueUsers at hu ⊢
    simp only []
    rw [List.pairwise_append]
    refine ⟨hu, List.pairwise_singleton _ _, ?_⟩
    intro a ha b hb
    have hb' : b = (⟨db.nextId, u1, email, hash_password s1 p1.toList, n1⟩ : User) := by
      simpa using hb
    subst hb'
    rw [List.find?_eq_none] at h3 h4
    exact ⟨by simpa using h4 a ha, by simpa using h3 a ha⟩

/-- Witness for C9's amended theorem: the concrete second attempt with the
same email and a fresh username conflicts. -/
theorem C9_duplicate_email_witness :
    register ⟨[⟨1, "alice", "a@b.com", hash_password ['s'] "secret123".toList, 0⟩], 2⟩
        "a@b.com" "bob" "hunter111" ['t'] 5
      = (.conflict "Email already registered",
         ⟨[⟨1, "alice", "a@b.com", hash_password ['s'] "secret123".toList, 0⟩], 2⟩) :=
  (C9_duplicate_email ⟨[], 1⟩
      ⟨[⟨1, "alice", "a@b.com", hash_password ['s'] "secret123".toList, 0⟩], 2⟩
      "a@b.com" "alice" "secret123" ['s'] 0
      ⟨1, "alice", "a@b.com", hash_password ['s'] "secret123".toList, 0⟩
      (generate_jwt 1 0) rfl).1
    "bob" "hunter111" ['t'] 5 (by decide) (by decide)

/-! ## Unauthenticated user creation — `create_user`, src/backend/app.py
lines 129-147

`User(username=..., auth_provider='username')` passes the keyword argument
`auth_provider`, which is not a mapped attribute of the `User` model
(src/backend/models.py lines 6-15), so the SQLAlchemy constructor raises
`TypeError` and the endpoint's create branch returns a 500-style error. -/

/-- The mapped attributes of the `User` model (columns of src/backend/models.py
lines 10-15 plus the `game_results` relationship of line 18). -/
def userModelAttrs : List String :=
  ["id", "username", "email", "password_hash", "created_at", "last_login", "game_results"]

/-- The SQLAlchemy declarative constructor accepts only mapped attributes as
keyword arguments. -/
def userCtorKwargsOk (kwargs : List String) : Bool :=
  kwargs.all (fun k => userModelAttrs.contains k)

/-- The response shapes of the `create_user` endpoint. -/
inductive CreateUserResult where
  | badRequest (error : String)
  | okExisting (user : User)
  | created (user : User)
  | serverError (error : String)
deriving DecidableEq, Repr

/-- The `create_user` endpoint (src/backend/app.py lines 129-147): get-or-create
by username.  `username = none` models a body without the `username` key.  The
create branch calls `User(username=..., auth_provider='username')`; when the
keyword arguments are not all mapped attributes the constructor raises, which
Flask surfaces as a 500 response, and nothing is committed. -/
def create_user (db : DB) (username : Option String) : CreateUserResult × DB :=
  match username with
  | none => (.badRequest "Username is required", db)
  | some uname =>
    match db.users.find? (fun u => u.username == uname) with
    | some existing => (.okExisting existing, db)
    | none =>
      if userCtorKwargsOk ["username", "auth_provider"] then
        (.created ⟨db.nextId, uname, "", [], 0⟩,
         ⟨db.users ++ [⟨db.nextId, uname, "", [], 0⟩], db.nextId + 1⟩)
      else
        (.serverError "TypeError: 'auth_provider' is an invalid keyword argument for User", db)

/-- `auth_provider` is not a mapped attribute of the `User` model. -/
lemma auth_provider_not_attr : userCtorKwargsOk ["username", "auth_provider"] = false := by
  decide

/-- C10: when a user with the given username exists, `create_user` returns
that stored user and leaves the database unchanged; when none exists, it
fails with the `TypeError` from the invalid `auth_provider` keyword (again
leaving the database unchanged); and in no case does it return a
successfully created user. -/
theorem C10_create_user (db : DB) (uname : String) :
    (∀ u, db.users.find? (fun x => x.username == uname) = some u →
        create_user db (some uname) = (.okExisting u, db))
    ∧ (db.users.find? (fun x => x.username == uname) = none →
        create_user db (some uname)
          = (.serverError "TypeError: 'auth_provider' is an invalid keyword argument for User",
             db))
    ∧ ∀ u' db2, create_user db (some uname) ≠ (.created u', db2) := by
  refine ⟨?_, ?_, ?_⟩
  · intro u hf
    simp [create_user, hf]
  · intro hf
    simp [create_user, hf, auth_provider_not_attr]
  · intro u' db2 hc
    rcases hfind : db.users.find? (fun x => x.username == uname) with _ | u
    · simp [create_user, hfind, auth_provider_not_attr] at hc
    · simp [create_user, hfind] at hc

/-- Witness for C10: a stored `alice` is returned unchanged, and creating a
fresh `bob` fails with the `TypeError`, leaving the database unchanged. -/
theorem C10_create_user_witness :
    create_user ⟨[⟨1, "alice", "a@b.com", [], 0⟩], 2⟩ (some "alice")
      = (.okExisting ⟨1, "alice", "a@b.com", [], 0⟩, ⟨[⟨1, "alice", "a@b.com", [], 0⟩], 2⟩)
    ∧ create_user ⟨[], 1⟩ (some "bob")
      = (.serverError "TypeError: 'auth_provider' is an invalid keyword argument for User",
         ⟨[], 1⟩) :=
  ⟨(C10_create_user ⟨[⟨1, "alice", "a@b.com", [], 0⟩], 2⟩ "alice").1 _ rfl,
   (C10_create_user ⟨[], 1⟩ "bob").2.1 rfl⟩

end MemoryMatch
